import Mathlib

/-!
Verification of the heplify packet decoder (package `decoder`, plus the
`protos`/`save` helpers) against its natural-language specification.

The decoder is shallowly embedded: Go byte slices become `Option (List Nat)`
(`none` is the nil slice), Go panics (out-of-range index / slice) are made
explicit through a `panicked` flag, the external collaborators that the spec
declares out of scope (the gopacket layer parsers, the correlation module,
the DNS extractor, the defragmenters) are passed in as oracle functions, and
the statistics counters / output queue become an explicit `Effects` record.
-/

set_option linter.unusedVariables false

namespace Heplify

/-- Byte strings are lists of naturals (each entry is one byte, `0 ≤ b < 256`). -/
abbrev Bytes := List Nat

/-- A Go byte slice: `none` is the nil slice, `some l` a non-nil slice holding `l`.
A non-nil empty slice (`some []`) is distinct from `none`, exactly as in Go,
which matters for the decoder's `pkt.Payload != nil` checks. -/
abbrev GoBytes := Option Bytes

/-- Go `len(s)` of a byte slice; the length of the nil slice is 0. -/
def goLen (s : GoBytes) : Nat := (s.getD []).length

/-- Go indexing `s[i]` of a byte slice; `none` models the out-of-range panic. -/
def goIndex (s : GoBytes) (i : Nat) : Option Nat := (s.getD [])[i]?

/-- Go slicing `s[i:]` of a byte slice; `none` models the slice-bounds panic.
Slicing the nil slice at 0 is legal in Go and yields nil again. -/
def goSliceFrom (s : GoBytes) (i : Nat) : Option GoBytes :=
  match s with
  | none => if i = 0 then some none else none
  | some l => if i ≤ l.length then some (some (l.drop i)) else none

/-- Does `l` start with `s`? (used to embed `bytes.Index`). -/
def bytesStartsWith : Bytes → Bytes → Bool
  | _, [] => true
  | [], _ :: _ => false
  | a :: l, b :: s => a == b && bytesStartsWith l s

/-- First position of `sep` inside `l`, if any. -/
def bytesIndexAux (sep : Bytes) : Bytes → Option Nat
  | [] => if sep.length = 0 then some 0 else none
  | b :: rest =>
    if bytesStartsWith (b :: rest) sep then some 0
    else Option.map (fun n => n + 1) (bytesIndexAux sep rest)

/-- Embeds `bytes.Index(l, sep)`: first index of `sep` in `l`, or `-1`. -/
def bytesIndex (l sep : Bytes) : Int :=
  match bytesIndexAux sep l with
  | some n => (n : Int)
  | none => -1

/-- The bytes of `"CSeq"`. -/
def bCSeq : Bytes := [67, 83, 101, 113]

/-- The bytes of `"Cseq"`. -/
def bCseq : Bytes := [67, 115, 101, 113]

/-- The bytes of `"Sip0"`. -/
def bSip0 : Bytes := [83, 105, 112, 48]

/-- The capture metadata the decoder reads from `gopacket.CaptureInfo`:
the frame timestamp, as Unix seconds and the nanosecond part. -/
structure CaptureInfo where
  unixSec : Nat
  nanosec : Nat
deriving DecidableEq

/-- The configuration snapshot consumed by the decoder
(`config.Cfg` fields used in `decoder.go`). -/
structure Config where
  dedup : Bool
  reassembly : Bool
  withErspan : Bool
  mode : String
  discardMethod : String
  discardSrcIP : String
deriving DecidableEq

/-- The normalized record produced by the decoder (`decoder.Packet`).
IP addresses are kept opaque as strings; `""` stands for the nil `net.IP`. -/
structure Packet where
  version : Nat
  protocol : Nat
  srcIP : String
  dstIP : String
  srcPort : Nat
  dstPort : Nat
  tsec : Nat
  tmsec : Nat
  protoType : Nat
  payload : GoBytes
  cid : GoBytes
  vlan : Nat
deriving DecidableEq

/-- The zero value of `decoder.Packet` (Go composite-literal defaults). -/
def zeroPacket : Packet :=
  { version := 0, protocol := 0, srcIP := "", dstIP := "", srcPort := 0, dstPort := 0,
    tsec := 0, tmsec := 0, protoType := 0, payload := none, cid := none, vlan := 0 }

/-- The decoded layer tags handled by the dispatch loop (`gopacket.LayerType`). -/
inductive LayerType where
  | sll | dot1q | gre | eth | vxlan | ipv4 | ipv6 | sctp | udp | tcp | dns | payloadL
deriving DecidableEq

/-- Parsed 802.1Q fields read by the decoder. -/
structure Dot1QLayer where
  vlanIdentifier : Nat
deriving DecidableEq

/-- Parsed GRE fields read by the decoder (only the payload is used). -/
structure GRELayer where
  payload : Bytes
deriving DecidableEq

/-- Parsed IPv4 fields read by the decoder. -/
structure IP4Layer where
  flags : Nat
  fragOffset : Nat
  length : Nat
  protocol : Nat
  srcIP : String
  dstIP : String
  payload : Bytes
deriving DecidableEq

/-- Parsed IPv6 fields read by the decoder. -/
structure IP6Layer where
  nextHeader : Nat
  length : Nat
  srcIP : String
  dstIP : String
  payload : Bytes
deriving DecidableEq

/-- Parsed UDP fields read by the decoder. -/
structure UDPLayer where
  srcPort : Nat
  dstPort : Nat
  payload : GoBytes
deriving DecidableEq

/-- Parsed TCP fields read by the decoder. -/
structure TCPLayer where
  srcPort : Nat
  dstPort : Nat
  payload : GoBytes
deriving DecidableEq

/-- Parsed SCTP fields read by the decoder. -/
structure SCTPLayer where
  srcPort : Nat
  dstPort : Nat
  payload : GoBytes
deriving DecidableEq

/-- The decoded DNS layer, kept opaque (its parsing is out of scope). -/
structure DNSLayer where
  raw : Bytes
deriving DecidableEq

/-- An IPv6 fragment extension header, kept opaque. -/
structure IP6FragLayer where
  raw : Bytes
deriving DecidableEq

/-- The decoder's per-layer scratch structs (`Decoder.d1q`, `Decoder.gre`, ...),
overwritten by each `DecodeLayers` call. -/
structure LayerStructs where
  d1q : Dot1QLayer
  gre : GRELayer
  ip4 : IP4Layer
  ip6 : IP6Layer
  udp : UDPLayer
  tcp : TCPLayer
  sctp : SCTPLayer
  dns : DNSLayer
deriving DecidableEq

/-- Constant `gopacket.IPv4DontFragment` (bit 1). -/
def IPv4DontFragment : Nat := 2

/-- Constant `gopacket.IPv4MoreFragments` (bit 0). -/
def IPv4MoreFragments : Nat := 1

/-- Constant `layers.IPProtocolUDP`. -/
def IPProtocolUDP : Nat := 17

/-- Constant `layers.IPProtocolTCP`. -/
def IPProtocolTCP : Nat := 6

/-- Constant `layers.IPProtocolIPv6Fragment`. -/
def IPProtocolIPv6Fragment : Nat := 44

/-- Result of `DefragIPv4WithTimestamp`: an error, `nil` (fragment set still
incomplete), or a completed datagram. -/
inductive DefragRes4 where
  | fail (msg : String)
  | incomplete
  | complete (ip4 : IP4Layer)
deriving DecidableEq

/-- Result of `DefragIPv6WithTimestamp`. -/
inductive DefragRes6 where
  | fail (msg : String)
  | incomplete
  | complete (ip6 : IP6Layer)
deriving DecidableEq

/-- One `DecodeLayers` outcome of the main parser: the recognized layer tags,
and the layer structs it (re)filled. -/
structure ParseOut where
  chain : List LayerType
  st : LayerStructs

/-- The external collaborators of the decoder, passed in as oracles.
The spec places all of them out of scope and fixes only their interfaces. -/
structure Oracles where
  /-- The main `gopacket.DecodingLayerParser` over the full layer stack. -/
  parse : Bytes → ParseOut
  /-- Oracle for `Decoder.parserUDP`: a transport-only parse beginning at UDP. -/
  parseUDPOnly : Bytes → Option UDPLayer
  /-- Oracle counterpart for TCP (the decoder field `parserTCP`). -/
  parseTCPOnly : Bytes → Option TCPLayer
  /-- Oracle for `internal.ParseCSeq`: the CSeq method token of a raw frame, if any
  (`none` is Go's nil result). -/
  parseCSeq : Bytes → Option String
  /-- Oracle for `correlateLOG`: protocol-type tag and correlation ID from a syslog payload. -/
  correlateLOG : GoBytes → Nat × GoBytes
  /-- Oracle for `correlateRTCP`: matched payload and correlation ID from an RTCP payload
  plus its 4-tuple. -/
  correlateRTCP : String → Nat → String → Nat → GoBytes → GoBytes × GoBytes
  /-- Oracle for `protos.ParseDNS` over the decoded DNS layer. -/
  parseDNS : DNSLayer → GoBytes
  /-- Oracle for `Decoder.defragIP4`. -/
  defragIP4 : IP4Layer → CaptureInfo → DefragRes4
  /-- Oracle for `Decoder.defragIP6`. -/
  defragIP6 : IP6Layer → IP6FragLayer → CaptureInfo → DefragRes6
  /-- The `gopacket.NewPacket(...).Layer(LayerTypeIPv6Fragment)` lookup on the
  raw frame; `none` is the nil interface, whose type assertion panics. -/
  lookupIP6Frag : Bytes → Option IP6FragLayer

/-- The observable side effects of one decode invocation: records pushed onto
`PacketQueue`, the statistics counters incremented, and instrumentation for
how often the parser and the IPv4 defragmenter were invoked. -/
structure Effects where
  enqueued : List Packet := []
  fragCount : Nat := 0
  dupCount : Nat := 0
  dnsCount : Nat := 0
  ip4Count : Nat := 0
  ip6Count : Nat := 0
  rtcpCount : Nat := 0
  rtcpFailCount : Nat := 0
  tcpCount : Nat := 0
  hepCount : Nat := 0
  sctpCount : Nat := 0
  udpCount : Nat := 0
  unknownCount : Nat := 0
  parseCalls : Nat := 0
  defragCalls : Nat := 0
deriving DecidableEq

/-- Sequential composition of effects. -/
def addEff (a b : Effects) : Effects where
  enqueued := a.enqueued ++ b.enqueued
  fragCount := a.fragCount + b.fragCount
  dupCount := a.dupCount + b.dupCount
  dnsCount := a.dnsCount + b.dnsCount
  ip4Count := a.ip4Count + b.ip4Count
  ip6Count := a.ip6Count + b.ip6Count
  rtcpCount := a.rtcpCount + b.rtcpCount
  rtcpFailCount := a.rtcpFailCount + b.rtcpFailCount
  tcpCount := a.tcpCount + b.tcpCount
  hepCount := a.hepCount + b.hepCount
  sctpCount := a.sctpCount + b.sctpCount
  udpCount := a.udpCount + b.udpCount
  unknownCount := a.unknownCount + b.unknownCount
  parseCalls := a.parseCalls + b.parseCalls
  defragCalls := a.defragCalls + b.defragCalls

/-- The outcome of (part of) a decode invocation: its effects and whether the
Go code would have panicked (out-of-range index or slice). -/
structure Run where
  eff : Effects := {}
  panicked : Bool := false
deriving DecidableEq

/-- Prepend the effects `e` to the run `r`. -/
def seqRun (e : Effects) (r : Run) : Run :=
  { eff := addEff e r.eff, panicked := r.panicked }

/-- The generic SIP classification at the end of `processTransport`
(decoder.go lines 454-464): find `"CSeq"` (or `"Cseq"`), tag protocol-type
SIP(1) if present, and when the match position exceeds 16 trim a `"Sip0"`
load-balancer preamble off the payload. -/
def classifyPkt (pkt : Packet) : Packet :=
  let pl := pkt.payload.getD []
  let c1 := bytesIndex pl bCSeq
  let cPos : Int := if c1 > -1 then c1 else bytesIndex pl bCseq
  let pt := if cPos > -1 then 1 else pkt.protoType
  let pay : GoBytes :=
    if cPos > 16 then
      let s := bytesIndex (pl.take cPos.toNat) bSip0
      if s > -1 then some (pl.drop (s.toNat + 4)) else pkt.payload
    else pkt.payload
  { pkt with protoType := pt, payload := pay }

/-- The final decision of `processTransport` (decoder.go lines 454-471):
run the generic classification, then enqueue iff the protocol-type is
nonzero and the payload is non-nil; otherwise count the packet as unknown. -/
def genericFinish (pkt : Packet) : Run :=
  let p := classifyPkt pkt
  if 0 < p.protoType ∧ p.payload ≠ none then { eff := { enqueued := [p] } }
  else { eff := { unknownCount := 1 } }

/-- The source-address discard filter at the top of `processTransport`
(decoder.go lines 345-351): drop when a filter is configured and the source
address literally matches one of its comma-separated entries. -/
def srcFiltered (cfg : Config) (sIP : String) : Bool :=
  cfg.discardSrcIP != "" && (cfg.discardSrcIP.splitOn ",").contains sIP

/-- The record skeleton built at decoder.go lines 353-360: IP version tag,
IP protocol, addresses, and the capture timestamp (`uint32` conversions). -/
def initPkt (ipVersion ipProtocol : Nat) (sIP dIP : String) (ci : CaptureInfo) : Packet :=
  { zeroPacket with
    version := ipVersion, protocol := ipProtocol, srcIP := sIP, dstIP := dIP,
    tsec := ci.unixSec % 4294967296, tmsec := (ci.nanosec / 1000) % 4294967296 }

/-- The per-layer dispatch loop of `processTransport` (decoder.go lines
362-452) followed by the generic classification. Each branch mirrors one
`case` of the Go type switch; `{}` is an early `return` with no enqueue,
and `{ panicked := true }` an out-of-range panic. `extractCID` is
side-effect-free for the record and is therefore not modelled. -/
def transportLoop (cfg : Config) (o : Oracles) (st : LayerStructs) (ci : CaptureInfo) :
    List LayerType → Packet → Run
  | [], pkt => genericFinish pkt
  | lt :: rest, pkt =>
    match lt with
    | LayerType.dot1q =>
      transportLoop cfg o st ci rest { pkt with vlan := st.d1q.vlanIdentifier }
    | LayerType.udp =>
      if goLen st.udp.payload < 16 then {} else
      let pkt := { pkt with srcPort := st.udp.srcPort, dstPort := st.udp.dstPort,
                            payload := st.udp.payload }
      let pl := st.udp.payload.getD []
      seqRun { udpCount := 1 }
        (if cfg.mode = "SIPLOG" ∧ st.udp.dstPort = 514 then
          let lc := o.correlateLOG st.udp.payload
          let pkt := { pkt with protoType := lc.1, cid := lc.2 }
          if 0 < pkt.protoType ∧ pkt.cid ≠ none then { eff := { enqueued := [pkt] } }
          else {}
        else if cfg.mode ≠ "SIP" then
          if (pl.headD 0 &&& 192) >>> 6 = 2 then
            if (pl.getD 1 0 = 200 ∨ pl.getD 1 0 = 201 ∨ pl.getD 1 0 = 207)
                ∧ st.udp.srcPort % 2 ≠ 0 ∧ st.udp.dstPort % 2 ≠ 0 then
              let rc := o.correlateRTCP pkt.srcIP pkt.srcPort pkt.dstIP pkt.dstPort
                          st.udp.payload
              let pkt := { pkt with payload := rc.1, cid := rc.2 }
              if pkt.payload ≠ none then
                { eff := { rtcpCount := 1, enqueued := [{ pkt with protoType := 5 }] } }
              else { eff := { rtcpFailCount := 1 } }
            else if st.udp.srcPort % 2 = 0 ∧ st.udp.dstPort % 2 = 0 then
              {}  -- RTP: in SIPRTP mode the payload only reaches the logger; drop
            else
              transportLoop cfg o st ci rest pkt
          else
            transportLoop cfg o st ci rest pkt
        else
          transportLoop cfg o st ci rest pkt)
    | LayerType.tcp =>
      let pkt := { pkt with srcPort := st.tcp.srcPort, dstPort := st.tcp.dstPort,
                            payload := st.tcp.payload }
      seqRun { tcpCount := 1 }
        (if cfg.reassembly then {} else transportLoop cfg o st ci rest pkt)
    | LayerType.sctp =>
      let pkt := { pkt with srcPort := st.sctp.srcPort, dstPort := st.sctp.dstPort }
      (match goIndex st.sctp.payload 8 with
      | none => { panicked := true }
      | some b =>
        let sliced : Option GoBytes :=
          if b = 0 then goSliceFrom st.sctp.payload 16
          else if b = 64 then goSliceFrom st.sctp.payload 20
          else some pkt.payload
        match sliced with
        | none => { panicked := true }
        | some pay =>
          seqRun { sctpCount := 1 } (transportLoop cfg o st ci rest { pkt with payload := pay }))
    | LayerType.dns =>
      if cfg.mode = "SIPDNS" then
        { eff := { dnsCount := 1,
                   enqueued := [{ pkt with protoType := 53, payload := o.parseDNS st.dns }] } }
      else transportLoop cfg o st ci rest pkt
    | _ => transportLoop cfg o st ci rest pkt

/-- Embeds `Decoder.processTransport` (decoder.go lines 344-471): source filter,
record skeleton, per-layer dispatch, generic classification. -/
def processTransport (cfg : Config) (o : Oracles) (st : LayerStructs) (ci : CaptureInfo)
    (chain : List LayerType) (ipVersion ipProtocol : Nat) (sIP dIP : String) : Run :=
  if srcFiltered cfg sIP then {}
  else transportLoop cfg o st ci chain (initPkt ipVersion ipProtocol sIP dIP ci)

/-- Embeds `Decoder.ProcessHEPPacket` (decoder.go lines 473-482): wrap the raw bytes
in a record with IP-version tag 100, count it, and enqueue unconditionally. -/
def ProcessHEPPacket (data : GoBytes) : Run :=
  { eff := { hepCount := 1, enqueued := [{ zeroPacket with version := 100, payload := data }] } }

/-- The GRE branch of the dispatch loop (decoder.go lines 244-270): what gets
fed back into `DecodeLayers`, if anything. `none` is the panic on an empty
GRE payload under ERSPAN; `some none` means no redecode happens (unmatched
ERSPAN version or too-short payload); `some (some b)` redecodes `b`. -/
def greRedecodeInput (withErspan : Bool) (p : Bytes) : Option (Option Bytes) :=
  if withErspan then
    match p with
    | [] => none
    | b0 :: _ =>
      let erspanVer := (b0 &&& 240) >>> 4
      if erspanVer = 1 ∧ p.length > 8 then some (some (p.drop 8))
      else if erspanVer = 2 ∧ p.length > 12 then
        let off := if p.getD 11 0 &&& 1 = 1 ∧ p.length > 20 then 20 else 12
        some (some (p.drop off))
      else some none
  else some (some p)

/-- The IPv4 fast-path test of decoder.go line 275: don't-fragment set, or
neither more-fragments nor a fragment offset. -/
def ip4FastPath (p : IP4Layer) : Bool :=
  (p.flags &&& IPv4DontFragment != 0) ||
  (p.flags &&& IPv4MoreFragments == 0 && p.fragOffset == 0)

/-- The outcome of one network-layer case of the dispatch loop: the run so
far, and—when the case does not `return` from `Process`—the (possibly
replaced) decoded-layer chain and layer structs to keep iterating over. -/
structure StepRes where
  run : Run := {}
  cont : Option (List LayerType × LayerStructs) := none

/-- The IPv4 case of the dispatch loop (decoder.go lines 272-306): count,
fast-path straight into `processTransport`, or defragment; on a completed
reassembly of a new length, re-parse the transport layer only. -/
def handleIPv4 (cfg : Config) (o : Oracles) (ci : CaptureInfo)
    (chain : List LayerType) (st : LayerStructs) : StepRes :=
  let e1 : Effects := { ip4Count := 1 }
  if ip4FastPath st.ip4 then
    let r := processTransport cfg o st ci chain 2 st.ip4.protocol st.ip4.srcIP st.ip4.dstIP
    { run := seqRun e1 r, cont := if r.panicked then none else some (chain, st) }
  else
    let e2 := addEff e1 { defragCalls := 1 }
    match o.defragIP4 st.ip4 ci with
    | DefragRes4.fail _ => { run := { eff := e2 } }
    | DefragRes4.incomplete => { run := { eff := addEff e2 { fragCount := 1 } } }
    | DefragRes4.complete ip4New =>
      if ip4New.length = st.ip4.length then
        let r := processTransport cfg o st ci chain 2 st.ip4.protocol st.ip4.srcIP st.ip4.dstIP
        { run := seqRun e2 r, cont := if r.panicked then none else some (chain, st) }
      else if ip4New.protocol = IPProtocolUDP then
        let next :=
          match o.parseUDPOnly ip4New.payload with
          | some u => ([LayerType.udp], { st with udp := u })
          | none => (([] : List LayerType), st)
        let r := processTransport cfg o next.2 ci next.1 2 ip4New.protocol
                   ip4New.srcIP ip4New.dstIP
        { run := seqRun (addEff e2 { parseCalls := 1 }) r,
          cont := if r.panicked then none else some next }
      else if ip4New.protocol = IPProtocolTCP then
        let next :=
          match o.parseTCPOnly ip4New.payload with
          | some t => ([LayerType.tcp], { st with tcp := t })
          | none => (([] : List LayerType), st)
        let r := processTransport cfg o next.2 ci next.1 2 ip4New.protocol
                   ip4New.srcIP ip4New.dstIP
        { run := seqRun (addEff e2 { parseCalls := 1 }) r,
          cont := if r.panicked then none else some next }
      else
        { run := { eff := e2 } }

/-- The IPv6 case of the dispatch loop (decoder.go lines 308-339). Looking up
the Fragment extension header uses a fresh packet parse of the raw frame; a
missing layer makes the bare type assertion panic. -/
def handleIPv6 (cfg : Config) (o : Oracles) (ci : CaptureInfo) (data : Bytes)
    (chain : List LayerType) (st : LayerStructs) : StepRes :=
  let e1 : Effects := { ip6Count := 1 }
  if st.ip6.nextHeader ≠ IPProtocolIPv6Fragment then
    let r := processTransport cfg o st ci chain 10 st.ip6.nextHeader st.ip6.srcIP st.ip6.dstIP
    { run := seqRun e1 r, cont := if r.panicked then none else some (chain, st) }
  else
    match o.lookupIP6Frag data with
    | none => { run := { eff := e1, panicked := true } }
    | some frag =>
      match o.defragIP6 st.ip6 frag ci with
      | DefragRes6.fail _ => { run := { eff := e1 } }
      | DefragRes6.incomplete => { run := { eff := addEff e1 { fragCount := 1 } } }
      | DefragRes6.complete ip6New =>
        if ip6New.nextHeader = IPProtocolUDP then
          let next :=
            match o.parseUDPOnly ip6New.payload with
            | some u => ([LayerType.udp], { st with udp := u })
            | none => (([] : List LayerType), st)
          let r := processTransport cfg o next.2 ci next.1 10 ip6New.nextHeader
                     ip6New.srcIP ip6New.dstIP
          { run := seqRun (addEff e1 { parseCalls := 1 }) r,
            cont := if r.panicked then none else some next }
        else if ip6New.nextHeader = IPProtocolTCP then
          let next :=
            match o.parseTCPOnly ip6New.payload with
            | some t => ([LayerType.tcp], { st with tcp := t })
            | none => (([] : List LayerType), st)
          let r := processTransport cfg o next.2 ci next.1 10 ip6New.nextHeader
                     ip6New.srcIP ip6New.dstIP
          { run := seqRun (addEff e1 { parseCalls := 1 }) r,
            cont := if r.panicked then none else some next }
        else
          { run := { eff := e1 } }

/-- The pre-scan of decoder.go lines 235-240: index of the last VXLAN tag in
the decoded chain, 0 when absent; the dispatch loop starts there. -/
def lastVxlanIdx (chain : List LayerType) : Nat :=
  (List.range chain.length).foldl
    (fun j i => if chain.getD i LayerType.eth == LayerType.vxlan then i else j) 0

/-- The dispatch loop of `Decoder.Process` (decoder.go lines 242-341), with
explicit fuel (the Go loop terminates because every GRE redecode strictly
shrinks the payload, which an arbitrary parser oracle need not guarantee).
A GRE redecode replaces the chain; only the first such redecode resets the
scan index (to 0, resumed at 1 by the loop increment). -/
def dispatchLoop (cfg : Config) (o : Oracles) (ci : CaptureInfo) (data : Bytes) :
    Nat → List LayerType → LayerStructs → Nat → Bool → Run
  | 0, _, _, _, _ => {}
  | Nat.succ fuel, chain, st, i, foundGRELayer =>
    if i < chain.length then
      match chain.getD i LayerType.eth with
      | LayerType.gre =>
        (match greRedecodeInput cfg.withErspan st.gre.payload with
        | none => { panicked := true }
        | some none => dispatchLoop cfg o ci data fuel chain st (i + 1) foundGRELayer
        | some (some b) =>
          let pr := o.parse b
          let iNext := if foundGRELayer then i else 0
          seqRun { parseCalls := 1 }
            (dispatchLoop cfg o ci data fuel pr.chain pr.st (iNext + 1) true))
      | LayerType.ipv4 =>
        let s := handleIPv4 cfg o ci chain st
        (match s.cont with
        | none => s.run
        | some next =>
          seqRun s.run.eff (dispatchLoop cfg o ci data fuel next.1 next.2 (i + 1) foundGRELayer))
      | LayerType.ipv6 =>
        let s := handleIPv6 cfg o ci data chain st
        (match s.cont with
        | none => s.run
        | some next =>
          seqRun s.run.eff (dispatchLoop cfg o ci data fuel next.1 next.2 (i + 1) foundGRELayer))
      | _ => dispatchLoop cfg o ci data fuel chain st (i + 1) foundGRELayer
    else {}

/-- The CSeq-method discard filter of decoder.go lines 220-229: extract the
CSeq method from the raw frame and drop the frame when it matches one of the
configured (uppercased, comma-separated) method names. -/
def methodFiltered (cfg : Config) (o : Oracles) (data : Bytes) : Bool :=
  cfg.discardMethod != "" &&
    (match o.parseCSeq data with
     | some c => ((cfg.discardMethod.toUpper).splitOn ",").contains c
     | none => false)

/-- Embeds `Decoder.Process` after the dedup block (decoder.go lines 220-341):
method filter, full parse, VXLAN pre-scan, dispatch loop. -/
def processBody (cfg : Config) (o : Oracles) (data : Bytes) (ci : CaptureInfo) : Run :=
  if methodFiltered cfg o data then {}
  else
    let pr := o.parse data
    seqRun { parseCalls := 1 }
      (dispatchLoop cfg o ci data (data.length + pr.chain.length + 8)
        pr.chain pr.st (lastVxlanIdx pr.chain) false)

/-- The result of one `Decoder.Process` call: the dedup cache afterwards and
the run. The cache is the set of currently live fingerprints; freecache's
TTL and capacity eviction are not modelled, so two calls against the same
cache model two frames inside one TTL window. -/
structure ProcOut where
  cache : List Bytes
  run : Run
deriving DecidableEq

/-- Embeds `Decoder.Process` (decoder.go lines 204-342). The dedup fingerprint is
`data[34:]`; frames of 34 bytes or less skip the cache entirely. A cache hit
only bumps the duplicate counter; a miss inserts the fingerprint and decodes. -/
def Process (cfg : Config) (o : Oracles) (cache : List Bytes) (data : Bytes)
    (ci : CaptureInfo) : ProcOut :=
  if cfg.dedup ∧ data.length > 34 then
    if data.drop 34 ∈ cache then
      { cache := cache, run := { eff := { dupCount := 1 } } }
    else
      { cache := data.drop 34 :: cache, run := processBody cfg o data ci }
  else { cache := cache, run := processBody cfg o data ci }

/-! ### Concrete fixtures used by counterexamples and witnesses -/

/-- A concrete capture timestamp. -/
def ci0 : CaptureInfo := { unixSec := 1700000000, nanosec := 123456000 }

/-- All-zero layer structs. -/
def emptyStructs : LayerStructs :=
  { d1q := { vlanIdentifier := 0 },
    gre := { payload := [] },
    ip4 := { flags := 0, fragOffset := 0, length := 0, protocol := 0,
             srcIP := "", dstIP := "", payload := [] },
    ip6 := { nextHeader := 0, length := 0, srcIP := "", dstIP := "", payload := [] },
    udp := { srcPort := 0, dstPort := 0, payload := none },
    tcp := { srcPort := 0, dstPort := 0, payload := none },
    sctp := { srcPort := 0, dstPort := 0, payload := none },
    dns := { raw := [] } }

/-- Inert collaborators: nothing correlates, nothing parses. -/
def nilOracles : Oracles :=
  { parse := fun _ => { chain := [], st := emptyStructs },
    parseUDPOnly := fun _ => none,
    parseTCPOnly := fun _ => none,
    parseCSeq := fun _ => none,
    correlateLOG := fun _ => (0, none),
    correlateRTCP := fun _ _ _ _ _ => (none, none),
    parseDNS := fun _ => none,
    defragIP4 := fun _ _ => DefragRes4.incomplete,
    defragIP6 := fun _ _ _ => DefragRes6.incomplete,
    lookupIP6Frag := fun _ => none }

/-- Collaborators whose RTCP correlation always matches, returning a fixed
 payload and correlation ID. -/
def matchOracles : Oracles :=
  { nilOracles with correlateRTCP := fun _ _ _ _ _ => (some [1, 2, 3], some [9]) }

/-- Default configuration: generic SIP mode, no filters, no dedup. -/
def cfgSIP : Config :=
  { dedup := false, reassembly := false, withErspan := false,
    mode := "SIP", discardMethod := "", discardSrcIP := "" }

/-- Same as `cfgSIP` but in the (non-SIP-only) default capture mode. -/
def cfgAll : Config := { cfgSIP with mode := "" }

/-- The 16 bytes of `"CSeq: 1 INVITE\r\n"`. -/
def csPayload : Bytes := [67, 83, 101, 113, 58, 32, 49, 32, 73, 78, 86, 73, 84, 69, 13, 10]

/-! ### Supporting lemmas -/

theorem bytesStartsWith_le : ∀ (l s : Bytes), bytesStartsWith l s = true → s.length ≤ l.length := by
  intro l
  induction l with
  | nil => intro s h; cases s with
    | nil => simp
    | cons b t => simp [bytesStartsWith] at h
  | cons a l ih =>
    intro s h
    cases s with
    | nil => simp
    | cons b t =>
      simp only [bytesStartsWith, Bool.and_eq_true] at h
      simpa [Nat.succ_le_succ_iff] using ih t h.2

theorem bytesIndexAux_le (sep : Bytes) :
    ∀ (l : Bytes) (n : Nat), bytesIndexAux sep l = some n → n + sep.length ≤ l.length := by
  intro l
  induction l with
  | nil =>
    intro n h
    simp only [bytesIndexAux] at h
    split at h
    · rename_i hz
      cases h
      simp [hz]
    · cases h
  | cons b rest ih =>
    intro n h
    simp only [bytesIndexAux] at h
    split at h
    · rename_i hs
      cases h
      simpa using bytesStartsWith_le _ _ hs
    · rcases Option.map_eq_some'.mp h with ⟨m, hm, rfl⟩
      have := ih m hm
      simp only [List.length_cons]
      omega

theorem bytesIndex_le (l sep : Bytes) (h : bytesIndex l sep > -1) :
    (bytesIndex l sep).toNat + sep.length ≤ l.length := by
  cases hx : bytesIndexAux sep l with
  | none => simp [bytesIndex, hx] at h
  | some n => simpa [bytesIndex, hx] using bytesIndexAux_le sep l n hx

/-! ### Claim theorems -/

/-- C10: `ProcessHEPPacket` enqueues exactly one record, whose `Version`
field is the passthrough tag 100, whose `ProtoType` field is 0 (unknown),
and whose payload is the raw input unchanged; the HEP counter is incremented
by one. -/
theorem c10_hep_passthrough (data : GoBytes) :
    (ProcessHEPPacket data).eff.enqueued = [{ zeroPacket with version := 100, payload := data }]
    ∧ (ProcessHEPPacket data).eff.enqueued.map Packet.version = [100]
    ∧ (ProcessHEPPacket data).eff.enqueued.map Packet.protoType = [0]
    ∧ (ProcessHEPPacket data).eff.enqueued.map Packet.payload = [data]
    ∧ (ProcessHEPPacket data).eff.hepCount = 1 :=
  ⟨rfl, rfl, rfl, rfl, rfl⟩

/-- C5: under ERSPAN-aware configuration, a GRE payload with top nibble 1 and
length over 8 is redecoded from offset 8; top nibble 2 with length over 12 is
redecoded from offset 12, except that with bit 0 of byte 11 set and length
over 20 it is redecoded from offset 20. -/
theorem c5_gre_erspan_offsets (p : Bytes) :
    (if (p.headD 0 &&& 240) >>> 4 = 1 ∧ 8 < p.length then
      greRedecodeInput true p = some (some (p.drop 8)) else True)
    ∧ (if (p.headD 0 &&& 240) >>> 4 = 2 ∧ 12 < p.length ∧
          (p.getD 11 0 &&& 1 = 1 ∧ 20 < p.length) then
      greRedecodeInput true p = some (some (p.drop 20)) else True)
    ∧ (if (p.headD 0 &&& 240) >>> 4 = 2 ∧ 12 < p.length ∧
          ¬(p.getD 11 0 &&& 1 = 1 ∧ 20 < p.length) then
      greRedecodeInput true p = some (some (p.drop 12)) else True) := by
  refine ⟨?_, ?_, ?_⟩ <;> split_ifs with h <;> try trivial
  · rcases p with _ | ⟨b0, t⟩
    · simp at h
    · obtain ⟨hv, hl⟩ := h
      simp only [List.headD_cons] at hv
      rw [greRedecodeInput]
      simp only [if_true]
      rw [if_pos ⟨hv, hl⟩]
  · rcases p with _ | ⟨b0, t⟩
    · simp at h
    · obtain ⟨hv, hl, hb, hl2⟩ := h
      simp only [List.headD_cons] at hv
      rw [greRedecodeInput]
      simp only [if_true]
      rw [if_neg (by simp [hv]), if_pos ⟨hv, hl⟩, if_pos ⟨hb, hl2⟩]
  · rcases p with _ | ⟨b0, t⟩
    · simp at h
    · obtain ⟨hv, hl, hno⟩ := h
      simp only [List.headD_cons] at hv
      rw [greRedecodeInput]
      simp only [if_true]
      rw [if_neg (by simp [hv]), if_pos ⟨hv, hl⟩, if_neg hno]

/-- If the generic classification raised the protocol type of a record that
entered with protocol type 0, then it found a token, so the resulting
payload is a non-nil, non-empty slice. -/
theorem classifyPkt_pos (pkt : Packet) (h0 : pkt.protoType = 0)
    (hpt : (classifyPkt pkt).protoType ≠ 0) :
    ∃ l, (classifyPkt pkt).payload = some l ∧ 0 < l.length := by
  rcases hp : pkt.payload with _ | l
  · exfalso
    apply hpt
    simp [classifyPkt, hp, h0, bytesIndex, bytesIndexAux, bCSeq, bCseq, bytesStartsWith]
  · by_cases hc : (if bytesIndex l bCSeq > -1 then bytesIndex l bCSeq
                   else bytesIndex l bCseq) > -1
    · have hbound : (if bytesIndex l bCSeq > -1 then bytesIndex l bCSeq
                     else bytesIndex l bCseq).toNat + 4 ≤ l.length := by
        by_cases hc1 : bytesIndex l bCSeq > -1
        · rw [if_pos hc1]
          simpa [bCSeq] using bytesIndex_le l bCSeq hc1
        · rw [if_neg hc1] at hc ⊢
          simpa [bCseq] using bytesIndex_le l bCseq hc
      by_cases ht : (if bytesIndex l bCSeq > -1 then bytesIndex l bCSeq
                     else bytesIndex l bCseq) > 16
      · by_cases hs : bytesIndex
            (l.take (if bytesIndex l bCSeq > -1 then bytesIndex l bCSeq
                     else bytesIndex l bCseq).toNat) bSip0 > -1
        · refine ⟨l.drop ((bytesIndex
              (l.take (if bytesIndex l bCSeq > -1 then bytesIndex l bCSeq
                       else bytesIndex l bCseq).toNat) bSip0).toNat + 4),
            by simp [classifyPkt, hp, ht, hs], ?_⟩
          have hsb := bytesIndex_le
            (l.take (if bytesIndex l bCSeq > -1 then bytesIndex l bCSeq
                     else bytesIndex l bCseq).toNat) bSip0 hs
          have h4 : bSip0.length = 4 := rfl
          rw [h4, List.length_take] at hsb
          simp only [List.length_drop]
          omega
        · exact ⟨l, by simp [classifyPkt, hp, ht, hs], by omega⟩
      · exact ⟨l, by simp [classifyPkt, hp, ht], by omega⟩
    · exfalso
      apply hpt
      simp [classifyPkt, hp, h0, hc]

/-- Layer tags whose `processTransport` case neither returns nor enqueues:
everything except the four transport/application cases of the type switch. -/
def nonTransportLayer (t : LayerType) : Bool :=
  match t with
  | LayerType.udp => false
  | LayerType.tcp => false
  | LayerType.sctp => false
  | LayerType.dns => false
  | _ => true

/-- Stepping the transport loop over a non-transport layer only (at most)
updates the in-progress record's VLAN field. -/
theorem transportLoop_noop (cfg : Config) (o : Oracles) (st : LayerStructs) (ci : CaptureInfo)
    (t : LayerType) (ht : nonTransportLayer t = true) (rest : List LayerType) (pkt : Packet) :
    ∃ pkt', transportLoop cfg o st ci (t :: rest) pkt = transportLoop cfg o st ci rest pkt'
      ∧ pkt'.srcIP = pkt.srcIP ∧ pkt'.dstIP = pkt.dstIP := by
  cases t <;> first
    | exact ⟨pkt, rfl, rfl, rfl⟩
    | exact ⟨{ pkt with vlan := st.d1q.vlanIdentifier }, rfl, rfl, rfl⟩
    | simp [nonTransportLayer] at ht

/-- C3: at the end of generic classification in `processTransport`, where
every fall-through path arrives with protocol type still 0, a record is
enqueued iff its protocol-type tag is nonzero and its payload is non-empty;
otherwise the unknown counter is incremented and nothing is enqueued. -/
theorem c3_generic_classification (pkt : Packet) (h0 : pkt.protoType = 0) :
    ((genericFinish pkt).eff.enqueued ≠ [] ↔
      ((classifyPkt pkt).protoType ≠ 0 ∧ goLen (classifyPkt pkt).payload ≠ 0))
    ∧ ((genericFinish pkt).eff.enqueued = [] ∨
       (genericFinish pkt).eff.enqueued = [classifyPkt pkt])
    ∧ ((genericFinish pkt).eff.enqueued = [] → (genericFinish pkt).eff.unknownCount = 1)
    ∧ ((genericFinish pkt).eff.enqueued ≠ [] → (genericFinish pkt).eff.unknownCount = 0) := by
  by_cases hcond : 0 < (classifyPkt pkt).protoType ∧ (classifyPkt pkt).payload ≠ none
  · obtain ⟨l, hl, hlen⟩ := classifyPkt_pos pkt h0 (by omega)
    have hgf : genericFinish pkt = { eff := { enqueued := [classifyPkt pkt] } } := by
      unfold genericFinish
      rw [if_pos hcond]
    refine ⟨?_, Or.inr (by rw [hgf]), fun he => absurd he (by rw [hgf]; simp), fun _ => by rw [hgf]⟩
    rw [hgf]
    simp only [ne_eq, List.cons_ne_self]
    constructor
    · intro _
      have hc1 := hcond.1
      refine ⟨by omega, ?_⟩
      rw [hl]
      simp only [goLen, Option.getD_some, ne_eq]
      omega
    · intro _
      simp
  · have hgf : genericFinish pkt = { eff := { unknownCount := 1 } } := by
      unfold genericFinish
      rw [if_neg hcond]
    rw [hgf]
    refine ⟨?_, Or.inl rfl, fun _ => rfl, fun he => absurd rfl he⟩
    simp only [ne_eq, not_true_eq_false, false_iff]
    rintro ⟨hpt, hgl⟩
    rcases not_and_or.mp hcond with hzero | hnil
    · exact hpt (by omega)
    · exact hgl (by simp [goLen, not_not.mp hnil])

/-- On a decoded UDP layer with both ports even and RTP version bits, in a
non-SIP-only mode that does not take the syslog shortcut, the transport loop
returns without enqueuing, whatever preceding non-transport layers did. -/
theorem transportLoop_udp_even (cfg : Config) (o : Oracles) (st : LayerStructs)
    (ci : CaptureInfo) (rest : List LayerType)
    (hmode : cfg.mode ≠ "SIP")
    (hlog : cfg.mode = "SIPLOG" → st.udp.dstPort ≠ 514)
    (hb0 : ((st.udp.payload.getD []).headD 0 &&& 192) >>> 6 = 2)
    (hsrc : st.udp.srcPort % 2 = 0) (hdst : st.udp.dstPort % 2 = 0) :
    ∀ (pre : List LayerType) (pkt : Packet), (∀ t ∈ pre, nonTransportLayer t = true) →
      (transportLoop cfg o st ci (pre ++ LayerType.udp :: rest) pkt).eff.enqueued = [] := by
  intro pre
  induction pre with
  | nil =>
    intro pkt hpre
    simp only [List.nil_append]
    by_cases hlen : goLen st.udp.payload < 16
    · simp [transportLoop, hlen]
    · have h514 : ¬(cfg.mode = "SIPLOG" ∧ st.udp.dstPort = 514) := by
        rintro ⟨hm, hd⟩
        exact hlog hm hd
      have hrt : ¬(((st.udp.payload.getD []).getD 1 0 = 200 ∨
                    (st.udp.payload.getD []).getD 1 0 = 201 ∨
                    (st.udp.payload.getD []).getD 1 0 = 207)
                  ∧ st.udp.srcPort % 2 ≠ 0 ∧ st.udp.dstPort % 2 ≠ 0) := by
        rintro ⟨_, h2, _⟩
        exact h2 hsrc
      have hb0n : (((st.udp.payload.getD []).head?.getD 0 &&& 192) >>> 6) = 2 := by
        simpa using hb0
      simp [transportLoop, hlen, h514, hmode, hb0n, hrt, hsrc, hdst, seqRun, addEff]
  | cons t pre ih =>
    intro pkt hpre
    obtain ⟨pkt', heq, _, _⟩ :=
      transportLoop_noop cfg o st ci t (hpre t (by simp)) (pre ++ LayerType.udp :: rest) pkt
    rw [List.cons_append, heq]
    exact ih pkt' (fun x hx => hpre x (by simp [hx]))

/-- The layer structs of the C1 counterexample: a decoded UDP layer with both
ports even whose payload is a SIP fragment. -/
def stC1 : LayerStructs :=
  { emptyStructs with udp := { srcPort := 5004, dstPort := 5006, payload := some csPayload } }

/-- C1 (counterexample): a decoded UDP packet whose ports are both even IS
enqueued by `processTransport` when the payload carries a `"CSeq"` token and
the mode is SIP-only — the RTP drop only triggers on RTP version bits and in
non-SIP modes, so the claim's "regardless of payload content and operating
mode" is false. -/
theorem c1_even_ports_counterexample :
    stC1.udp.srcPort % 2 = 0 ∧ stC1.udp.dstPort % 2 = 0 ∧
    (processTransport cfgSIP nilOracles stC1 ci0 [LayerType.udp] 2 17
      "10.0.0.1" "10.0.0.2").eff.enqueued.length = 1 := by
  decide

/-- C1 (amended): for every decoded UDP packet whose ports are both even and
whose first payload byte carries RTP version bits `10`, when the mode is not
SIP-only (and, in SIPLOG mode, the destination port is not 514),
`processTransport` never enqueues a record, regardless of the remaining
payload content. -/
theorem c1_even_ports_amended (cfg : Config) (o : Oracles) (st : LayerStructs)
    (ci : CaptureInfo) (pre rest : List LayerType) (ipVersion ipProtocol : Nat)
    (sIP dIP : String)
    (hpre : ∀ t ∈ pre, nonTransportLayer t = true)
    (hmode : cfg.mode ≠ "SIP")
    (hlog : cfg.mode = "SIPLOG" → st.udp.dstPort ≠ 514)
    (hb0 : ((st.udp.payload.getD []).headD 0 &&& 192) >>> 6 = 2)
    (hsrc : st.udp.srcPort % 2 = 0) (hdst : st.udp.dstPort % 2 = 0) :
    (processTransport cfg o st ci (pre ++ LayerType.udp :: rest)
      ipVersion ipProtocol sIP dIP).eff.enqueued = [] := by
  unfold processTransport
  split_ifs with hf
  · rfl
  · exact transportLoop_udp_even cfg o st ci rest hmode hlog hb0 hsrc hdst pre _ hpre

/-- A 16-byte RTP packet (version bits `10`, payload type 0). -/
def rtpPayload : Bytes := [128, 0, 0, 1, 0, 0, 0, 0, 0, 0, 0, 0, 0, 0, 0, 0]

/-- The layer structs of the C1 witness: an RTP payload on even ports. -/
def stC1w : LayerStructs :=
  { emptyStructs with udp := { srcPort := 5004, dstPort := 5006, payload := some rtpPayload } }

/-- C1 witness: the amended statement at a concrete even-port RTP packet. -/
theorem c1_even_ports_amended_witness :
    (processTransport cfgAll nilOracles stC1w ci0 [LayerType.udp] 2 17
      "10.0.0.1" "10.0.0.2").eff.enqueued = [] :=
  c1_even_ports_amended cfgAll nilOracles stC1w ci0 [] [] 2 17 "10.0.0.1" "10.0.0.2"
    (by decide) (by decide) (by decide) (by decide) (by decide) (by decide)

/-- On a decoded UDP layer carrying RTP version bits, an RTCP packet type and
odd source and destination ports, in a non-SIP-only mode, the transport loop
takes the RTCP correlation branch: on a non-nil match it enqueues one record
tagged 5 and bumps the success counter, on nil it only bumps the failure
counter. -/
theorem transportLoop_udp_rtcp (cfg : Config) (o : Oracles) (st : LayerStructs)
    (ci : CaptureInfo) (rest : List LayerType) (l : Bytes)
    (hmode : cfg.mode ≠ "SIP")
    (hpl : st.udp.payload = some l)
    (hlen : 16 ≤ l.length)
    (hb0 : (l.headD 0 &&& 192) >>> 6 = 2)
    (hb1 : l.getD 1 0 = 200 ∨ l.getD 1 0 = 201 ∨ l.getD 1 0 = 207)
    (hsrc : st.udp.srcPort % 2 = 1) (hdst : st.udp.dstPort % 2 = 1) :
    ∀ (pre : List LayerType) (pkt : Packet), (∀ t ∈ pre, nonTransportLayer t = true) →
      (if (o.correlateRTCP pkt.srcIP st.udp.srcPort pkt.dstIP st.udp.dstPort
            st.udp.payload).1 ≠ none then
        (transportLoop cfg o st ci (pre ++ LayerType.udp :: rest) pkt).eff.enqueued.map
            Packet.protoType = [5]
        ∧ (transportLoop cfg o st ci (pre ++ LayerType.udp :: rest) pkt).eff.enqueued.map
            Packet.payload
            = [(o.correlateRTCP pkt.srcIP st.udp.srcPort pkt.dstIP st.udp.dstPort
                 st.udp.payload).1]
        ∧ (transportLoop cfg o st ci (pre ++ LayerType.udp :: rest) pkt).eff.rtcpCount = 1
        ∧ (transportLoop cfg o st ci (pre ++ LayerType.udp :: rest) pkt).eff.rtcpFailCount = 0
        ∧ (transportLoop cfg o st ci (pre ++ LayerType.udp :: rest) pkt).panicked = false
      else
        (transportLoop cfg o st ci (pre ++ LayerType.udp :: rest) pkt).eff.enqueued = []
        ∧ (transportLoop cfg o st ci (pre ++ LayerType.udp :: rest) pkt).eff.rtcpFailCount = 1
        ∧ (transportLoop cfg o st ci (pre ++ LayerType.udp :: rest) pkt).eff.rtcpCount = 0
        ∧ (transportLoop cfg o st ci (pre ++ LayerType.udp :: rest) pkt).panicked = false) := by
  intro pre
  induction pre with
  | nil =>
    intro pkt hpre
    have hlen2 : ¬goLen st.udp.payload < 16 := by
      simp [goLen, hpl]
      omega
    have h514 : ¬(cfg.mode = "SIPLOG" ∧ st.udp.dstPort = 514) := by
      rintro ⟨_, hd⟩
      rw [hd] at hdst
      simp at hdst
    have hb0n : (((st.udp.payload.getD []).head?.getD 0 &&& 192) >>> 6) = 2 := by
      rw [hpl]
      simpa using hb0
    have hrt : ((st.udp.payload.getD [])[1]?.getD 0 = 200 ∨
                (st.udp.payload.getD [])[1]?.getD 0 = 201 ∨
                (st.udp.payload.getD [])[1]?.getD 0 = 207)
              ∧ st.udp.srcPort % 2 ≠ 0 ∧ st.udp.dstPort % 2 ≠ 0 := by
      rw [hpl]
      refine ⟨?_, by omega, by omega⟩
      simpa using hb1
    by_cases hrc : (o.correlateRTCP pkt.srcIP st.udp.srcPort pkt.dstIP st.udp.dstPort
        st.udp.payload).1 ≠ none
    · rw [if_pos hrc]
      refine ⟨?_, ?_, ?_, ?_, ?_⟩ <;>
        simp [transportLoop, hlen2, h514, hmode, hb0n, hrt, hrc, seqRun, addEff]
    · rw [if_neg hrc]
      have hrcn : (o.correlateRTCP pkt.srcIP st.udp.srcPort pkt.dstIP st.udp.dstPort
          st.udp.payload).1 = none := not_not.mp hrc
      refine ⟨?_, ?_, ?_, ?_⟩ <;>
        simp [transportLoop, hlen2, h514, hmode, hb0n, hrt, hrcn, seqRun, addEff]
  | cons t pre ih =>
    intro pkt hpre
    obtain ⟨pkt', heq, hsip, hdip⟩ :=
      transportLoop_noop cfg o st ci t (hpre t (by simp)) (pre ++ LayerType.udp :: rest) pkt
    rw [List.cons_append, heq, ← hsip, ← hdip]
    exact ih pkt' (fun x hx => hpre x (by simp [hx]))

/-- C2 (amended): for every UDP packet that actually reaches classification
(payload at least 16 bytes, source address not discarded) in a non-SIP-only
mode, with RTP version bits, an RTCP packet type in {200, 201, 207} and both
ports odd: a non-nil correlation result is enqueued as one record tagged
RTCP(5) with the success counter bumped; a nil result only bumps the failure
counter and enqueues nothing. -/
theorem c2_rtcp_amended (cfg : Config) (o : Oracles) (st : LayerStructs) (ci : CaptureInfo)
    (pre rest : List LayerType) (ipVersion ipProtocol : Nat) (sIP dIP : String) (l : Bytes)
    (hfilter : srcFiltered cfg sIP = false)
    (hpre : ∀ t ∈ pre, nonTransportLayer t = true)
    (hmode : cfg.mode ≠ "SIP")
    (hpl : st.udp.payload = some l)
    (hlen : 16 ≤ l.length)
    (hb0 : (l.headD 0 &&& 192) >>> 6 = 2)
    (hb1 : l.getD 1 0 = 200 ∨ l.getD 1 0 = 201 ∨ l.getD 1 0 = 207)
    (hsrc : st.udp.srcPort % 2 = 1) (hdst : st.udp.dstPort % 2 = 1) :
    (if (o.correlateRTCP sIP st.udp.srcPort dIP st.udp.dstPort st.udp.payload).1 ≠ none then
      (processTransport cfg o st ci (pre ++ LayerType.udp :: rest)
          ipVersion ipProtocol sIP dIP).eff.enqueued.map Packet.protoType = [5]
      ∧ (processTransport cfg o st ci (pre ++ LayerType.udp :: rest)
          ipVersion ipProtocol sIP dIP).eff.enqueued.map Packet.payload
          = [(o.correlateRTCP sIP st.udp.srcPort dIP st.udp.dstPort st.udp.payload).1]
      ∧ (processTransport cfg o st ci (pre ++ LayerType.udp :: rest)
          ipVersion ipProtocol sIP dIP).eff.rtcpCount = 1
      ∧ (processTransport cfg o st ci (pre ++ LayerType.udp :: rest)
          ipVersion ipProtocol sIP dIP).eff.rtcpFailCount = 0
    else
      (processTransport cfg o st ci (pre ++ LayerType.udp :: rest)
          ipVersion ipProtocol sIP dIP).eff.enqueued = []
      ∧ (processTransport cfg o st ci (pre ++ LayerType.udp :: rest)
          ipVersion ipProtocol sIP dIP).eff.rtcpFailCount = 1
      ∧ (processTransport cfg o st ci (pre ++ LayerType.udp :: rest)
          ipVersion ipProtocol sIP dIP).eff.rtcpCount = 0) := by
  have hmain := transportLoop_udp_rtcp cfg o st ci rest l hmode hpl hlen hb0 hb1 hsrc hdst
    pre (initPkt ipVersion ipProtocol sIP dIP ci) hpre
  have hsrcIP : (initPkt ipVersion ipProtocol sIP dIP ci).srcIP = sIP := rfl
  have hdstIP : (initPkt ipVersion ipProtocol sIP dIP ci).dstIP = dIP := rfl
  rw [hsrcIP, hdstIP] at hmain
  have hpt : processTransport cfg o st ci (pre ++ LayerType.udp :: rest)
      ipVersion ipProtocol sIP dIP
      = transportLoop cfg o st ci (pre ++ LayerType.udp :: rest)
          (initPkt ipVersion ipProtocol sIP dIP ci) := by
    unfold processTransport
    rw [hfilter]
    simp
  rw [hpt]
  split_ifs with hc
  · rw [if_pos hc] at hmain
    exact ⟨hmain.1, hmain.2.1, hmain.2.2.1, hmain.2.2.2.1⟩
  · rw [if_neg hc] at hmain
    exact ⟨hmain.1, hmain.2.1, hmain.2.2.1⟩

/-- The layer structs of the C2 counterexample: a 2-byte payload with RTP
version bits and RTCP packet type 200, on odd ports. -/
def stC2 : LayerStructs :=
  { emptyStructs with udp := { srcPort := 5005, dstPort := 5007, payload := some [128, 200] } }

/-- C2 (counterexample): with a 2-byte payload satisfying every condition the
claim lists (version bits `10`, second byte 200, both ports odd, non-SIP
mode) and a correlation oracle that returns a non-nil payload,
`processTransport` enqueues nothing and leaves both RTCP counters untouched:
the 16-byte UDP minimum drops the packet before the heuristic runs, a
precondition the claim does not state. -/
theorem c2_rtcp_counterexample :
    (matchOracles.correlateRTCP "10.0.0.1" 5005 "10.0.0.2" 5007 (some [128, 200])).1 ≠ none
    ∧ ((stC2.udp.payload.getD []).headD 0 &&& 192) >>> 6 = 2
    ∧ (stC2.udp.payload.getD []).getD 1 0 = 200
    ∧ stC2.udp.srcPort % 2 = 1 ∧ stC2.udp.dstPort % 2 = 1
    ∧ cfgAll.mode ≠ "SIP"
    ∧ (processTransport cfgAll matchOracles stC2 ci0 [LayerType.udp] 2 17
        "10.0.0.1" "10.0.0.2").eff.enqueued = []
    ∧ (processTransport cfgAll matchOracles stC2 ci0 [LayerType.udp] 2 17
        "10.0.0.1" "10.0.0.2").eff.rtcpCount = 0
    ∧ (processTransport cfgAll matchOracles stC2 ci0 [LayerType.udp] 2 17
        "10.0.0.1" "10.0.0.2").eff.rtcpFailCount = 0 := by
  decide

/-- A 16-byte RTCP sender report header (version bits `10`, packet type 200). -/
def rtcpPayload : Bytes := [128, 200, 0, 6, 0, 0, 0, 0, 0, 0, 0, 0, 0, 0, 0, 0]

/-- The layer structs of the C2 witness: the RTCP report on odd ports. -/
def stC2w : LayerStructs :=
  { emptyStructs with udp := { srcPort := 5005, dstPort := 5007, payload := some rtcpPayload } }

/-- C2 witness: the amended statement at a concrete odd-port RTCP report with
a matching correlation oracle. -/
theorem c2_rtcp_amended_witness :
    (processTransport cfgAll matchOracles stC2w ci0 [LayerType.udp] 2 17
      "10.0.0.1" "10.0.0.2").eff.enqueued.map Packet.protoType = [5]
    ∧ (processTransport cfgAll matchOracles stC2w ci0 [LayerType.udp] 2 17
      "10.0.0.1" "10.0.0.2").eff.rtcpCount = 1 := by
  have h := c2_rtcp_amended cfgAll matchOracles stC2w ci0 [] [] 2 17
    "10.0.0.1" "10.0.0.2" rtcpPayload
    (by decide) (by decide) (by decide) rfl (by decide) (by decide) (by decide)
    (by decide) (by decide)
  rw [if_pos (by decide)] at h
  exact ⟨h.1, h.2.2.1⟩

/-- The record used in the C3 witness: protocol type 0, SIP payload. -/
def pktC3 : Packet := { zeroPacket with payload := some csPayload }

/-- C3 witness: the final classification decision at a concrete record. -/
theorem c3_generic_classification_witness :
    ((genericFinish pktC3).eff.enqueued ≠ [] ↔
      ((classifyPkt pktC3).protoType ≠ 0 ∧ goLen (classifyPkt pktC3).payload ≠ 0))
    ∧ ((genericFinish pktC3).eff.enqueued = [] ∨
       (genericFinish pktC3).eff.enqueued = [classifyPkt pktC3])
    ∧ ((genericFinish pktC3).eff.enqueued = [] → (genericFinish pktC3).eff.unknownCount = 1)
    ∧ ((genericFinish pktC3).eff.enqueued ≠ [] → (genericFinish pktC3).eff.unknownCount = 0) :=
  c3_generic_classification pktC3 rfl

/-- An in-range index read on a list is the `getD` value. -/
theorem getElem?_eq_some_getD (l : Bytes) (i : Nat) (h : i < l.length) :
    l[i]? = some (l.getD i 0) := by
  rw [List.getElem?_eq_getElem h]
  rw [List.getD_eq_getElem?_getD, List.getElem?_eq_getElem h]
  rfl

/-- The function `genericFinish` never calls back into the parser or defragmenter, never
touches the duplicate counter, and never panics. -/
theorem genericFinish_quiet (pkt : Packet) :
    (genericFinish pkt).eff.defragCalls = 0 ∧ (genericFinish pkt).eff.parseCalls = 0
    ∧ (genericFinish pkt).eff.dupCount = 0 ∧ (genericFinish pkt).panicked = false := by
  simp only [genericFinish]
  split_ifs <;> exact ⟨rfl, rfl, rfl, rfl⟩

/-- The transport loop never invokes the parser or the defragmenter and never
touches the duplicate counter. -/
theorem transportLoop_quiet (cfg : Config) (o : Oracles) (st : LayerStructs) (ci : CaptureInfo) :
    ∀ (chain : List LayerType) (pkt : Packet),
      (transportLoop cfg o st ci chain pkt).eff.defragCalls = 0
      ∧ (transportLoop cfg o st ci chain pkt).eff.parseCalls = 0
      ∧ (transportLoop cfg o st ci chain pkt).eff.dupCount = 0 := by
  intro chain
  induction chain with
  | nil =>
    intro pkt
    exact ⟨(genericFinish_quiet pkt).1, (genericFinish_quiet pkt).2.1,
      (genericFinish_quiet pkt).2.2.1⟩
  | cons t rest ih =>
    intro pkt
    cases t
    case sll => exact ih _
    case eth => exact ih _
    case vxlan => exact ih _
    case gre => exact ih _
    case ipv4 => exact ih _
    case ipv6 => exact ih _
    case payloadL => exact ih _
    case dot1q => exact ih _
    case udp =>
      simp only [transportLoop]
      split_ifs <;> simp [seqRun, addEff, ih]
    case tcp =>
      simp only [transportLoop]
      split_ifs <;> simp [seqRun, addEff, ih]
    case sctp =>
      simp only [transportLoop]
      generalize goIndex st.sctp.payload 8 = gi
      cases gi with
      | none => exact ⟨rfl, rfl, rfl⟩
      | some b =>
        simp only []
        generalize (if b = 0 then goSliceFrom st.sctp.payload 16
          else if b = 64 then goSliceFrom st.sctp.payload 20
          else some pkt.payload) = sl
        cases sl with
        | none => exact ⟨rfl, rfl, rfl⟩
        | some pay => simp [seqRun, addEff, ih]
    case dns =>
      simp only [transportLoop]
      split_ifs <;> simp [seqRun, addEff, ih]

/-- The function `processTransport` never invokes the parser or the defragmenter and never
touches the duplicate counter. -/
theorem processTransport_quiet (cfg : Config) (o : Oracles) (st : LayerStructs)
    (ci : CaptureInfo) (chain : List LayerType) (ipVersion ipProtocol : Nat)
    (sIP dIP : String) :
    (processTransport cfg o st ci chain ipVersion ipProtocol sIP dIP).eff.defragCalls = 0
    ∧ (processTransport cfg o st ci chain ipVersion ipProtocol sIP dIP).eff.parseCalls = 0
    ∧ (processTransport cfg o st ci chain ipVersion ipProtocol sIP dIP).eff.dupCount = 0 := by
  unfold processTransport
  split_ifs
  · exact ⟨rfl, rfl, rfl⟩
  · exact transportLoop_quiet cfg o st ci chain _

/-- C6: in the SCTP case of `processTransport`, a payload whose byte 8 is 0
(DATA) reaches generic classification with the first 16 bytes stripped, and
one whose byte 8 is 64 (IDATA) with the first 20 bytes stripped. -/
theorem c6_sctp_strip (cfg : Config) (o : Oracles) (st : LayerStructs) (ci : CaptureInfo)
    (ipVersion ipProtocol : Nat) (sIP dIP : String) (l : Bytes)
    (hfilter : srcFiltered cfg sIP = false)
    (hpl : st.sctp.payload = some l) :
    (if l.getD 8 0 = 0 ∧ 16 ≤ l.length then
      processTransport cfg o st ci [LayerType.sctp] ipVersion ipProtocol sIP dIP
        = seqRun { sctpCount := 1 }
            (genericFinish { initPkt ipVersion ipProtocol sIP dIP ci with
                             srcPort := st.sctp.srcPort, dstPort := st.sctp.dstPort,
                             payload := some (l.drop 16) })
     else True)
    ∧ (if l.getD 8 0 = 64 ∧ 20 ≤ l.length then
      processTransport cfg o st ci [LayerType.sctp] ipVersion ipProtocol sIP dIP
        = seqRun { sctpCount := 1 }
            (genericFinish { initPkt ipVersion ipProtocol sIP dIP ci with
                             srcPort := st.sctp.srcPort, dstPort := st.sctp.dstPort,
                             payload := some (l.drop 20) })
     else True) := by
  have hpt : processTransport cfg o st ci [LayerType.sctp] ipVersion ipProtocol sIP dIP
      = transportLoop cfg o st ci [LayerType.sctp] (initPkt ipVersion ipProtocol sIP dIP ci) := by
    unfold processTransport
    rw [hfilter]
    simp
  constructor <;> split_ifs with h <;> try trivial
  · obtain ⟨hb, hlen⟩ := h
    have hgi : goIndex st.sctp.payload 8 = some (l.getD 8 0) := by
      rw [hpl]
      exact getElem?_eq_some_getD l 8 (by omega)
    rw [hb] at hgi
    have hslice : goSliceFrom st.sctp.payload 16 = some (some (l.drop 16)) := by
      rw [hpl]
      simp [goSliceFrom, hlen]
    rw [hpt]
    simp [transportLoop, hgi, hslice]
  · obtain ⟨hb, hlen⟩ := h
    have hgi : goIndex st.sctp.payload 8 = some (l.getD 8 0) := by
      rw [hpl]
      exact getElem?_eq_some_getD l 8 (by omega)
    rw [hb] at hgi
    have hslice : goSliceFrom st.sctp.payload 20 = some (some (l.drop 20)) := by
      rw [hpl]
      simp [goSliceFrom, hlen]
    rw [hpt]
    simp [transportLoop, hgi, hslice]

/-- A 20-byte SCTP DATA chunk (byte 8 is 0) whose application payload after
the 16-byte strip is `"CSeq"`. -/
def sctpData : Bytes := [0, 0, 0, 0, 0, 0, 0, 0, 0, 0, 0, 0, 0, 0, 0, 0, 67, 83, 101, 113]

/-- Layer structs with the `sctpData` DATA chunk. -/
def stC6w : LayerStructs :=
  { emptyStructs with sctp := { srcPort := 7, dstPort := 8, payload := some sctpData } }

/-- C6 witness: the DATA-chunk strip at a concrete 20-byte SCTP payload. -/
theorem c6_sctp_strip_witness :
    processTransport cfgSIP nilOracles stC6w ci0 [LayerType.sctp] 2 132 "10.0.0.1" "10.0.0.2"
      = seqRun { sctpCount := 1 }
          (genericFinish { initPkt 2 132 "10.0.0.1" "10.0.0.2" ci0 with
                           srcPort := stC6w.sctp.srcPort, dstPort := stC6w.sctp.dstPort,
                           payload := some (sctpData.drop 16) }) := by
  have h := (c6_sctp_strip cfgSIP nilOracles stC6w ci0 2 132 "10.0.0.1" "10.0.0.2" sctpData
    (by decide) rfl).1
  rw [if_pos (by decide)] at h
  exact h

/-- The layer structs of the C9 short-payload input: an 8-byte SCTP payload,
so reading byte 8 is out of range. -/
def stC9 : LayerStructs :=
  { emptyStructs with sctp := { srcPort := 1, dstPort := 2,
                                payload := some [0, 0, 0, 0, 0, 0, 0, 0] } }

/-- C9: the SCTP case indexes payload byte 8 and slices at 16 or 20 with no
length guard. Under the precondition (length at least 9, at least 16 for a
DATA chunk, at least 20 for IDATA) the accesses are in bounds and
`processTransport` does not panic; at a concrete 8-byte SCTP payload the
byte-8 read is out of range and the operation panics. -/
theorem c9_sctp_bounds (cfg : Config) (o : Oracles) (st : LayerStructs) (ci : CaptureInfo)
    (ipVersion ipProtocol : Nat) (sIP dIP : String) (l : Bytes)
    (hpl : st.sctp.payload = some l)
    (h9 : 9 ≤ l.length)
    (h0 : l.getD 8 0 = 0 → 16 ≤ l.length)
    (h64 : l.getD 8 0 = 64 → 20 ≤ l.length) :
    (processTransport cfg o st ci [LayerType.sctp] ipVersion ipProtocol sIP dIP).panicked
      = false
    ∧ (processTransport cfgSIP nilOracles stC9 ci0 [LayerType.sctp] 2 132
        "10.0.0.1" "10.0.0.2").panicked = true := by
  refine ⟨?_, by decide⟩
  unfold processTransport
  split_ifs with hf
  · rfl
  · have hgi : goIndex st.sctp.payload 8 = some (l.getD 8 0) := by
      rw [hpl]
      exact getElem?_eq_some_getD l 8 (by omega)
    by_cases hb0 : l.getD 8 0 = 0
    · have hslice : goSliceFrom st.sctp.payload 16 = some (some (l.drop 16)) := by
        rw [hpl]
        simp [goSliceFrom, h0 hb0]
      rw [hb0] at hgi
      simp [transportLoop, hgi, hslice, seqRun, genericFinish_quiet]
    · by_cases hb64 : l.getD 8 0 = 64
      · have hslice : goSliceFrom st.sctp.payload 20 = some (some (l.drop 20)) := by
          rw [hpl]
          simp [goSliceFrom, h64 hb64]
        rw [hb64] at hgi
        simp [transportLoop, hgi, hslice, seqRun, genericFinish_quiet]
      · have hb0n : ¬l[8]?.getD 0 = 0 := by simpa using hb0
        have hb64n : ¬l[8]?.getD 0 = 64 := by simpa using hb64
        simp [transportLoop, hgi, hb0n, hb64n, seqRun, genericFinish_quiet]

/-- C9 witness: the in-bounds direction at a concrete 20-byte DATA chunk,
alongside the concrete out-of-range panic. -/
theorem c9_sctp_bounds_witness :
    (processTransport cfgSIP nilOracles stC6w ci0 [LayerType.sctp] 2 132
      "10.0.0.1" "10.0.0.2").panicked = false
    ∧ (processTransport cfgSIP nilOracles stC9 ci0 [LayerType.sctp] 2 132
        "10.0.0.1" "10.0.0.2").panicked = true :=
  c9_sctp_bounds cfgSIP nilOracles stC6w ci0 2 132 "10.0.0.1" "10.0.0.2" sctpData
    rfl (by decide) (by decide) (by decide)

/-- The IPv4 fast-path test is false exactly under the claim's fragmentation
condition: don't-fragment clear and (more-fragments set or nonzero offset). -/
theorem ip4FastPath_false_iff (p : IP4Layer) :
    ip4FastPath p = false ↔
      (p.flags &&& IPv4DontFragment = 0 ∧
       (p.flags &&& IPv4MoreFragments ≠ 0 ∨ p.fragOffset ≠ 0)) := by
  simp only [ip4FastPath, Bool.or_eq_false_iff, Bool.and_eq_false_iff,
    bne_eq_false_iff_eq, beq_eq_false_iff_ne, ne_eq, beq_iff_eq]

/-- C4: in the IPv4 case of the dispatch loop, the defragmenter is invoked
exactly once iff don't-fragment is clear and (more-fragments is set or the
fragment offset is nonzero); every other IPv4 datagram goes straight to the
transport demultiplexer; and a nil (incomplete) defragmenter result bumps the
fragment counter and stops the frame with nothing enqueued. -/
theorem c4_ipv4_defrag_dispatch (cfg : Config) (o : Oracles) (ci : CaptureInfo)
    (chain : List LayerType) (st : LayerStructs) :
    ((handleIPv4 cfg o ci chain st).run.eff.defragCalls = 1 ↔
      (st.ip4.flags &&& IPv4DontFragment = 0 ∧
       (st.ip4.flags &&& IPv4MoreFragments ≠ 0 ∨ st.ip4.fragOffset ≠ 0)))
    ∧ (if ip4FastPath st.ip4 then
        handleIPv4 cfg o ci chain st
          = { run := seqRun { ip4Count := 1 }
                (processTransport cfg o st ci chain 2 st.ip4.protocol
                  st.ip4.srcIP st.ip4.dstIP),
              cont := if (processTransport cfg o st ci chain 2 st.ip4.protocol
                          st.ip4.srcIP st.ip4.dstIP).panicked then none
                      else some (chain, st) }
       else True)
    ∧ (if ip4FastPath st.ip4 = false ∧ o.defragIP4 st.ip4 ci = DefragRes4.incomplete then
        (handleIPv4 cfg o ci chain st).run.eff.fragCount = 1
        ∧ (handleIPv4 cfg o ci chain st).run.eff.enqueued = []
        ∧ (handleIPv4 cfg o ci chain st).cont = none
       else True) := by
  by_cases hf : ip4FastPath st.ip4
  · have hdc : (handleIPv4 cfg o ci chain st).run.eff.defragCalls = 0 := by
      simp [handleIPv4, hf, seqRun, addEff, processTransport_quiet]
    refine ⟨?_, ?_, ?_⟩
    · rw [hdc]
      constructor
      · omega
      · intro hc
        have := (ip4FastPath_false_iff st.ip4).mpr hc
        rw [hf] at this
        cases this
    · rw [if_pos hf]
      simp [handleIPv4, hf]
    · rw [if_neg (by simp [hf])]
      trivial
  · have hff : ip4FastPath st.ip4 = false := by
      simpa using hf
    have hfrag := (ip4FastPath_false_iff st.ip4).mp hff
    refine ⟨?_, by rw [if_neg hf]; trivial, ?_⟩
    · have hdc : (handleIPv4 cfg o ci chain st).run.eff.defragCalls = 1 := by
        cases hd : o.defragIP4 st.ip4 ci with
        | fail msg => simp [handleIPv4, hff, hd, seqRun, addEff]
        | incomplete => simp [handleIPv4, hff, hd, seqRun, addEff]
        | complete ip4New =>
          by_cases hlen : ip4New.length = st.ip4.length
          · simp [handleIPv4, hff, hd, hlen, seqRun, addEff, processTransport_quiet]
          · by_cases hu : ip4New.protocol = IPProtocolUDP
            · cases hpu : o.parseUDPOnly ip4New.payload with
              | none =>
                simp [handleIPv4, hff, hd, hlen, hu, hpu, seqRun, addEff,
                  IPProtocolUDP, IPProtocolTCP, processTransport_quiet]
              | some u =>
                simp [handleIPv4, hff, hd, hlen, hu, hpu, seqRun, addEff,
                  IPProtocolUDP, IPProtocolTCP, processTransport_quiet]
            · by_cases htc : ip4New.protocol = IPProtocolTCP
              · cases hpt : o.parseTCPOnly ip4New.payload with
                | none =>
                  simp [handleIPv4, hff, hd, hlen, hu, htc, hpt, seqRun, addEff,
                    IPProtocolUDP, IPProtocolTCP, processTransport_quiet]
                | some t =>
                  simp [handleIPv4, hff, hd, hlen, hu, htc, hpt, seqRun, addEff,
                    IPProtocolUDP, IPProtocolTCP, processTransport_quiet]
              · simp [handleIPv4, hff, hd, hlen, hu, htc, seqRun, addEff]
      rw [hdc]
      simp [hfrag]
    · split_ifs with hc
      simp [handleIPv4, hff, hc.2, seqRun, addEff]

/-- The IPv4 case never touches the duplicate counter. -/
theorem handleIPv4_dup (cfg : Config) (o : Oracles) (ci : CaptureInfo)
    (chain : List LayerType) (st : LayerStructs) :
    (handleIPv4 cfg o ci chain st).run.eff.dupCount = 0 := by
  by_cases hf : ip4FastPath st.ip4
  · simp [handleIPv4, hf, seqRun, addEff, processTransport_quiet]
  · have hff : ip4FastPath st.ip4 = false := by simpa using hf
    cases hd : o.defragIP4 st.ip4 ci with
    | fail msg => simp [handleIPv4, hff, hd, addEff]
    | incomplete => simp [handleIPv4, hff, hd, addEff]
    | complete ip4New =>
      by_cases hlen : ip4New.length = st.ip4.length
      · simp [handleIPv4, hff, hd, hlen, seqRun, addEff, processTransport_quiet]
      · by_cases hu : ip4New.protocol = IPProtocolUDP
        · cases hpu : o.parseUDPOnly ip4New.payload <;>
            simp [handleIPv4, hff, hd, hlen, hu, hpu, seqRun, addEff,
              IPProtocolUDP, IPProtocolTCP, processTransport_quiet]
        · by_cases htc : ip4New.protocol = IPProtocolTCP
          · cases hpt : o.parseTCPOnly ip4New.payload <;>
              simp [handleIPv4, hff, hd, hlen, hu, htc, hpt, seqRun, addEff,
                IPProtocolUDP, IPProtocolTCP, processTransport_quiet]
          · simp [handleIPv4, hff, hd, hlen, hu, htc, addEff]

/-- The IPv6 case never touches the duplicate counter. -/
theorem handleIPv6_dup (cfg : Config) (o : Oracles) (ci : CaptureInfo) (data : Bytes)
    (chain : List LayerType) (st : LayerStructs) :
    (handleIPv6 cfg o ci data chain st).run.eff.dupCount = 0 := by
  by_cases hnh : st.ip6.nextHeader ≠ IPProtocolIPv6Fragment
  · simp [handleIPv6, hnh, seqRun, addEff, processTransport_quiet]
  · cases hlf : o.lookupIP6Frag data with
    | none => simp [handleIPv6, hnh, hlf]
    | some frag =>
      cases hd : o.defragIP6 st.ip6 frag ci with
      | fail msg => simp [handleIPv6, hnh, hlf, hd, addEff]
      | incomplete => simp [handleIPv6, hnh, hlf, hd, addEff]
      | complete ip6New =>
        by_cases hu : ip6New.nextHeader = IPProtocolUDP
        · cases hpu : o.parseUDPOnly ip6New.payload <;>
            simp [handleIPv6, hnh, hlf, hd, hu, hpu, seqRun, addEff,
              IPProtocolUDP, IPProtocolTCP, processTransport_quiet]
        · by_cases htc : ip6New.nextHeader = IPProtocolTCP
          · cases hpt : o.parseTCPOnly ip6New.payload <;>
              simp [handleIPv6, hnh, hlf, hd, hu, htc, hpt, seqRun, addEff,
                IPProtocolUDP, IPProtocolTCP, processTransport_quiet]
          · simp [handleIPv6, hnh, hlf, hd, hu, htc, addEff]

/-- The dispatch loop never touches the duplicate counter: deduplication is
decided before any layer work, never during it. -/
theorem dispatchLoop_dup (cfg : Config) (o : Oracles) (ci : CaptureInfo) (data : Bytes) :
    ∀ (fuel : Nat) (chain : List LayerType) (st : LayerStructs) (i : Nat) (fg : Bool),
      (dispatchLoop cfg o ci data fuel chain st i fg).eff.dupCount = 0 := by
  intro fuel
  induction fuel with
  | zero => intros; rfl
  | succ fuel ih =>
    intro chain st i fg
    simp only [dispatchLoop]
    by_cases hi : i < chain.length
    · rw [if_pos hi]
      cases hc : chain.getD i LayerType.eth with
        | gre =>
          cases hg : greRedecodeInput cfg.withErspan st.gre.payload with
          | none => simp
          | some ob =>
            cases ob with
            | none => simp [ih]
            | some b => simp [ih, seqRun, addEff]
        | ipv4 =>
          cases hcont : (handleIPv4 cfg o ci chain st).cont with
          | none => simp [hcont, handleIPv4_dup]
          | some next => simp [hcont, ih, seqRun, addEff, handleIPv4_dup]
        | ipv6 =>
          cases hcont : (handleIPv6 cfg o ci data chain st).cont with
          | none => simp [hcont, handleIPv6_dup]
          | some next => simp [hcont, ih, seqRun, addEff, handleIPv6_dup]
        | sll => simp [ih]
        | dot1q => simp [ih]
        | eth => simp [ih]
        | vxlan => simp [ih]
        | sctp => simp [ih]
        | udp => simp [ih]
        | tcp => simp [ih]
        | dns => simp [ih]
        | payloadL => simp [ih]
    · rw [if_neg hi]

/-- The whole post-dedup pipeline never touches the duplicate counter. -/
theorem processBody_dup (cfg : Config) (o : Oracles) (data : Bytes) (ci : CaptureInfo) :
    (processBody cfg o data ci).eff.dupCount = 0 := by
  unfold processBody
  split_ifs
  · rfl
  · simp [seqRun, addEff, dispatchLoop_dup]

/-- C7: with dedup on, submitting an identical frame twice within the TTL
window (modelled as: against the same live cache) enqueues exactly the one
record the frame decodes to and bumps the duplicate counter exactly once;
the second call hits the cache, performs no parse and no other counter
update, and leaves the cache unchanged. -/
theorem c7_dedup_idempotence (cfg : Config) (o : Oracles) (cache : List Bytes)
    (data : Bytes) (ci : CaptureInfo) (rec : Packet)
    (hd : cfg.dedup = true) (hl : 34 < data.length)
    (hmiss : data.drop 34 ∉ cache)
    (h1 : (processBody cfg o data ci).eff.enqueued = [rec]) :
    (Process cfg o cache data ci).run.eff.enqueued ++
      (Process cfg o (Process cfg o cache data ci).cache data ci).run.eff.enqueued = [rec]
    ∧ (Process cfg o cache data ci).run.eff.dupCount = 0
    ∧ (Process cfg o (Process cfg o cache data ci).cache data ci).run
        = { eff := { dupCount := 1 } }
    ∧ (Process cfg o (Process cfg o cache data ci).cache data ci).run.eff.parseCalls = 0
    ∧ (Process cfg o (Process cfg o cache data ci).cache data ci).cache
        = (Process cfg o cache data ci).cache := by
  have hc1 : Process cfg o cache data ci
      = { cache := data.drop 34 :: cache, run := processBody cfg o data ci } := by
    unfold Process
    rw [if_pos ⟨hd, hl⟩, if_neg hmiss]
  have hc2 : Process cfg o (data.drop 34 :: cache) data ci
      = { cache := data.drop 34 :: cache, run := { eff := { dupCount := 1 } } } := by
    unfold Process
    rw [if_pos ⟨hd, hl⟩, if_pos (List.mem_cons_self _ _)]
  rw [hc1]
  simp only []
  rw [hc2]
  exact ⟨by simp [h1], processBody_dup cfg o data ci, rfl, rfl, rfl⟩

/-- C8: with dedup on, a frame of 34 bytes or less bypasses the dedup cache
entirely: the cache is unchanged (no fingerprint inserted, none matched),
the duplicate counter stays 0, and decoding proceeds as without dedup —
whatever cache state earlier identical frames left behind. -/
theorem c8_dedup_bypass_small (cfg : Config) (o : Oracles) (cache : List Bytes)
    (data : Bytes) (ci : CaptureInfo) (hl : data.length ≤ 34) :
    (Process cfg o cache data ci).cache = cache
    ∧ (Process cfg o cache data ci).run.eff.dupCount = 0
    ∧ (Process cfg o cache data ci).run = processBody cfg o data ci := by
  have hno : ¬(cfg.dedup = true ∧ data.length > 34) := by
    rintro ⟨_, h⟩
    omega
  unfold Process
  rw [if_neg hno]
  exact ⟨rfl, processBody_dup cfg o data ci, rfl⟩

/-- Configuration with deduplication switched on. -/
def cfgDedup : Config := { cfgSIP with dedup := true }

/-- Layer structs for the C7 witness frame: an IPv4 datagram on the fast path
(don't-fragment set) carrying a SIP UDP payload. -/
def stC7 : LayerStructs :=
  { emptyStructs with
    ip4 := { flags := 2, fragOffset := 0, length := 60, protocol := 17,
             srcIP := "10.0.0.1", dstIP := "10.0.0.2", payload := [] },
    udp := { srcPort := 5060, dstPort := 5060, payload := some csPayload } }

/-- A parser oracle that decodes every frame to that IPv4/UDP chain. -/
def parseOracles : Oracles :=
  { nilOracles with
    parse := fun _ => { chain := [LayerType.ipv4, LayerType.udp], st := stC7 } }

/-- A 35-byte frame, longer than the 34-byte dedup threshold. -/
def frame35 : Bytes := List.replicate 35 7

/-- The record the C7 witness frame decodes to. -/
def recC7 : Packet :=
  { version := 2, protocol := 17, srcIP := "10.0.0.1", dstIP := "10.0.0.2",
    srcPort := 5060, dstPort := 5060, tsec := 1700000000, tmsec := 123456,
    protoType := 1, payload := some csPayload, cid := none, vlan := 0 }

/-- C7 witness: two submissions of the identical concrete frame against an
initially empty cache. -/
theorem c7_dedup_idempotence_witness :
    (Process cfgDedup parseOracles [] frame35 ci0).run.eff.enqueued ++
      (Process cfgDedup parseOracles (Process cfgDedup parseOracles [] frame35 ci0).cache
        frame35 ci0).run.eff.enqueued = [recC7]
    ∧ (Process cfgDedup parseOracles [] frame35 ci0).run.eff.dupCount = 0
    ∧ (Process cfgDedup parseOracles (Process cfgDedup parseOracles [] frame35 ci0).cache
        frame35 ci0).run = { eff := { dupCount := 1 } }
    ∧ (Process cfgDedup parseOracles (Process cfgDedup parseOracles [] frame35 ci0).cache
        frame35 ci0).run.eff.parseCalls = 0
    ∧ (Process cfgDedup parseOracles (Process cfgDedup parseOracles [] frame35 ci0).cache
        frame35 ci0).cache = (Process cfgDedup parseOracles [] frame35 ci0).cache :=
  c7_dedup_idempotence cfgDedup parseOracles [] frame35 ci0 recC7 rfl (by decide)
    (by decide) (by decide)

/-- C8 witness: a 3-byte frame against a non-empty cache. -/
theorem c8_dedup_bypass_small_witness :
    (Process cfgDedup parseOracles [[7]] [1, 2, 3] ci0).cache = [[7]]
    ∧ (Process cfgDedup parseOracles [[7]] [1, 2, 3] ci0).run.eff.dupCount = 0
    ∧ (Process cfgDedup parseOracles [[7]] [1, 2, 3] ci0).run
        = processBody cfgDedup parseOracles [1, 2, 3] ci0 :=
  c8_dedup_bypass_small cfgDedup parseOracles [[7]] [1, 2, 3] ci0 (by decide)

end Heplify
